import Mathlib

/-!
Shallow embedding of the e2e test orchestration engine from
`src/e2e/src/lib.rs` (crate `e2e` of `impero-com/e2e-tests`).

Modelling conventions:
* `anyhow::Error` values are opaque to the engine; they are modelled as
  `String` (the message an error displays as).
* Browser handles are opaque; the engine only uses the keys of
  `browser_map`, so the map is modelled by its key list in insertion order.
  Iteration order of a Rust `std::collections::HashMap` is unspecified and
  varies between processes (randomized hasher state), so wherever the code
  iterates `browser_map` the embedding takes the iteration order as a
  parameter constrained (in theorems) to be a permutation of the inserted
  keys.
* The completion order of `buffer_unordered` is likewise a parameter: the
  list of per-cell results reaching the `fold` is constrained in theorems
  to be a permutation of the per-cell results of the constructed cells.
* A test body is modelled by its observable behaviour: it either returns a
  `Result<()>` or panics with a payload, in both cases having written some
  bytes of diagnostic output.
-/

deriving instance DecidableEq for Except

namespace E2E

/-- The three browser kinds of `enum BrowserType` in `lib.rs`. -/
inductive BrowserType
  | Chromium
  | Firefox
  | Webkit
deriving DecidableEq, Repr

/-- The `Display` impl of `BrowserType`. -/
def BrowserType.display : BrowserType → String
  | .Chromium => "Chromium"
  | .Firefox => "Firefox"
  | .Webkit => "Webkit"

/-- Model of `struct ErrorList<C>`: a vector of (context, error) pairs.
Errors are modelled as `String`. -/
structure ErrorList (C : Type) where
  vec : List (C × String)
deriving DecidableEq, Repr

/-- `ErrorList::new(context, error)` from `lib.rs`. -/
def ErrorList.new {C : Type} (context : C) (error : String) : ErrorList C :=
  ⟨[(context, error)]⟩

/-- `ErrorList::push(context, error)` from `lib.rs`. -/
def ErrorList.push {C : Type} (l : ErrorList C) (context : C) (error : String) :
    ErrorList C :=
  ⟨l.vec ++ [(context, error)]⟩

/-- Model of `struct FailedToInitialize(BrowserType)` (renamed because of
naming constraints of the development). -/
structure InitFailed where
  browser : BrowserType
deriving DecidableEq, Repr

/-- Model of `struct FailedToOpenPage { test_name, browser_type }`. -/
structure FailedToOpenPage where
  test_name : String
  browser_type : BrowserType
deriving DecidableEq, Repr

/-- The helper pattern repeated in all three environment bring-up blocks of
`run_tests`: on error, either start a new `ErrorList` or push onto the
existing one. -/
def pushInitError (errs : Option (ErrorList InitFailed)) (bt : BrowserType)
    (err : String) : Option (ErrorList InitFailed) :=
  match errs with
  | some l => some (l.push ⟨bt⟩ err)
  | none => some (ErrorList.new ⟨bt⟩ err)

/-- Model of the environment bring-up phase of `run_tests`
(`lib.rs` lines 75-137): the three launch attempts (chromium, firefox,
webkit, in program order) are each modelled by their result, `Except.ok ()`
for a successful launch and `Except.error e` for a failed one. Returns the
key list of `browser_map` in insertion order together with the accumulated
`initialization_errors`. Each of the three blocks runs unconditionally;
there is no early return before line 139. -/
def initBrowsers (chromium firefox webkit : Except String Unit) :
    List BrowserType × Option (ErrorList InitFailed) :=
  let map₀ : List BrowserType := []
  let errs₀ : Option (ErrorList InitFailed) := none
  let (map₁, errs₁) :=
    match chromium with
    | .ok () => (map₀ ++ [BrowserType.Chromium], errs₀)
    | .error e => (map₀, pushInitError errs₀ BrowserType.Chromium e)
  let (map₂, errs₂) :=
    match firefox with
    | .ok () => (map₁ ++ [BrowserType.Firefox], errs₁)
    | .error e => (map₁, pushInitError errs₁ BrowserType.Firefox e)
  match webkit with
  | .ok () => (map₂ ++ [BrowserType.Webkit], errs₂)
  | .error e => (map₂, pushInitError errs₂ BrowserType.Webkit e)

/-- A test case, modelled by its stable display name (`Testable::name`,
`type_name::<Self>()` for the blanket impl). -/
structure Testable where
  name : String
deriving DecidableEq, Repr

/-- A panic payload as classified by `CaughtPanic::new`: a `String`/`&str`
payload carries its text; any other payload is opaque. -/
inductive PanicPayload
  | strPayload (s : String)
  | nonStrPayload
deriving DecidableEq, Repr

/-- Model of `CaughtPanic::new` (`lib.rs` lines 389-397): downcast the
payload to `String` or `&str` and keep the text, else keep nothing. -/
def CaughtPanic.new : PanicPayload → Option String
  | .strPayload s => some s
  | .nonStrPayload => none

/-- The `Display` impl of `CaughtPanic` (`lib.rs` lines 406-413). -/
def CaughtPanic.display : Option String → String
  | some s => s
  | none => "Unknown error"

/-- Observable behaviour of one full execution of a test body: it either
returns a `Result<()>` or panics, having written `writes` bytes of
diagnostic output in the course of running. -/
inductive BodyOutcome
  | ret (r : Except String Unit) (writes : List UInt8)
  | panics (p : PanicPayload) (writes : List UInt8)
deriving DecidableEq, Repr

/-- Model of the blanket `Testable::run` impl (`lib.rs` lines 274-280):
the body runs under `CaptureOutputFuture`, which captures its output and
catches a panic; a caught panic is converted into an `Err` whose message is
the `Display` of the `CaughtPanic`. -/
def runTestable : BodyOutcome → Except String Unit × List UInt8
  | .ret r w => (r, w)
  | .panics p w => (.error (CaughtPanic.display (CaughtPanic.new p)), w)

/-- The `TestResult` struct of `lib.rs`. -/
structure TestResult where
  test_name : String
  browser_type : BrowserType
  result : Except String Unit
  output : List UInt8
deriving DecidableEq, Repr

/-- Behaviour of the external collaborators for one matrix cell: context
acquisition may fail, page acquisition may fail, or both succeed and the
test body runs with behaviour `body`. -/
inductive CellBehavior
  | contextFail (err : String)
  | pageFail (err : String)
  | run (body : BodyOutcome)
deriving DecidableEq, Repr

/-- Model of the per-cell async block of `run_tests` (`lib.rs` lines
145-175): a context-build or page-open failure yields
`Err((FailedToOpenPage { test_name, browser_type }, err))`; otherwise the
test body runs under `Testable::run` and the cell yields
`Ok(TestResult { .. })`. -/
def cellResult (test : Testable) (bt : BrowserType) (beh : CellBehavior) :
    Except (FailedToOpenPage × String) TestResult :=
  match beh with
  | .contextFail err => .error (⟨test.name, bt⟩, err)
  | .pageFail err => .error (⟨test.name, bt⟩, err)
  | .run body =>
      let (result, output) := runTestable body
      .ok ⟨test.name, bt, result, output⟩

/-- The execution matrix (`lib.rs` lines 143-145): for each test (outer)
and each entry of `browser_map` in iteration order `order` (inner), one
cell. -/
def mkCells (tests : List Testable) (order : List BrowserType) :
    List (Testable × BrowserType) :=
  tests.flatMap (fun test => order.map (fun bt => (test, bt)))

/-- The per-cell results of the whole matrix, in construction order. -/
def cellResults (tests : List Testable) (order : List BrowserType)
    (beh : Testable → BrowserType → CellBehavior) :
    List (Except (FailedToOpenPage × String) TestResult) :=
  (mkCells tests order).map (fun cell => cellResult cell.1 cell.2 (beh cell.1 cell.2))

/-- One step of the `fold` of `run_tests` (`lib.rs` lines 178-195): an `Ok`
result is pushed onto the running result vector; an `Err` starts or extends
the running `ErrorList`. -/
def foldStep (acc : List TestResult × Option (ErrorList FailedToOpenPage))
    (result : Except (FailedToOpenPage × String) TestResult) :
    List TestResult × Option (ErrorList FailedToOpenPage) :=
  match result, acc.2 with
  | .ok test_result, errors => (acc.1 ++ [test_result], errors)
  | .error (context, err), none => (acc.1, some (ErrorList.new context err))
  | .error (context, err), some error_list => (acc.1, some (error_list.push context err))

/-- The complete `fold` of `run_tests` over the stream of per-cell results
in the order they complete, starting from `(Vec::new(), None)`. -/
def foldResults (arrivals : List (Except (FailedToOpenPage × String) TestResult)) :
    List TestResult × Option (ErrorList FailedToOpenPage) :=
  arrivals.foldl foldStep ([], none)

/-- The two ways `run_tests` returns `Err`: the aggregated environment
bring-up errors (line 140), or the aggregated per-cell setup errors
(line 199). Both become an `anyhow::Error` in the code. -/
inductive RunError
  | initErrors (l : ErrorList InitFailed)
  | setupErrors (l : ErrorList FailedToOpenPage)
deriving DecidableEq, Repr

/-- Model of `run_tests` (`lib.rs` lines 71-203). The behaviour of the
external world is passed in: the three launch results, the iteration order
`order` of `browser_map`, the per-cell collaborator behaviour `beh`, and
the completion order `arrivals` of the per-cell results (theorems constrain
`order` to a permutation of the inserted keys and `arrivals` to a
permutation of `cellResults tests order beh`). If any bring-up error was
recorded the function returns it before any cell runs; otherwise the
per-cell results are folded and a non-empty setup `ErrorList` preempts the
result vector. -/
def run_tests (tests : List Testable) (chromium firefox webkit : Except String Unit)
    (order : List BrowserType) (beh : Testable → BrowserType → CellBehavior)
    (arrivals : List (Except (FailedToOpenPage × String) TestResult)) :
    Except RunError (List TestResult) :=
  match (initBrowsers chromium firefox webkit).2 with
  | some errors => .error (.initErrors errors)
  | none =>
      let (results, error_list) := foldResults arrivals
      match error_list with
      | some l => .error (.setupErrors l)
      | none => .ok results

/-- Whether a `Result<()>` is `Ok`, as tested by `test_result.result.is_ok()`. -/
def resultIsOk : Except String Unit → Bool
  | .ok () => true
  | .error _ => false

/-- The `Display` impl of `TestResult` (`lib.rs` lines 212-231), without the
appended stdout block (modelled separately since no claim depends on it):
`"<test> in <browser>...\t[OK]"` or `"<test> in <browser>...\t[FAILED]\n<err>"`. -/
def TestResult.displayLine (r : TestResult) : String :=
  match r.result with
  | .ok () => r.test_name ++ " in " ++ r.browser_type.display ++ "...\t[OK]"
  | .error err => r.test_name ++ " in " ++ r.browser_type.display ++ "...\t[FAILED]\n" ++ err

/-- The lines printed by the `Ok` branch of `e2e_test_runner`
(`lib.rs` lines 41-58): the `"\nSummary:"` header, one line per result, and
the trailing count line. -/
def summaryLines (test_results : List TestResult) : List String :=
  let successes := test_results.countP (fun r => resultIsOk r.result)
  ["\nSummary:"] ++ test_results.map TestResult.displayLine ++
    (if successes = test_results.length then
      [toString successes ++ " tests ran with success"]
    else
      [toString (test_results.length - successes) ++ " errors"])

/-- The exit code computed by the `match` of `e2e_test_runner`
(`lib.rs` lines 40-64): 0 when `run_tests` returned `Ok` and every result
is `Ok`, else 1. -/
def exitCode (results : Except RunError (List TestResult)) : Nat :=
  match results with
  | .ok test_results =>
      if test_results.countP (fun r => resultIsOk r.result) = test_results.length
      then 0 else 1
  | .error _ => 1

/-- Rendering of the `Debug` impl of `ErrorList` (`lib.rs` lines 341-349),
used by `println!("{:#?}", error)` in the `Err` branch. -/
def ErrorList.render {C : Type} (displayC : C → String) (l : ErrorList C) : String :=
  "ErrorList:\n" ++ String.join
    (l.vec.map (fun p => "\t- " ++ displayC p.1 ++ ": " ++ p.2 ++ "\n"))

/-- The `Display` impl of `FailedToInitialize` (`lib.rs` lines 365-369). -/
def InitFailed.display (c : InitFailed) : String :=
  "Failed to initialize " ++ c.browser.display

/-- The `Display` impl of `FailedToOpenPage` (`lib.rs` lines 376-384). -/
def FailedToOpenPage.display (c : FailedToOpenPage) : String :=
  "Failed to open page in " ++ c.browser_type.display ++ " of " ++ c.test_name

/-- Rendering of the `anyhow::Error` printed by the `Err` branch of
`e2e_test_runner`. -/
def RunError.render : RunError → String
  | .initErrors l => l.render InitFailed.display
  | .setupErrors l => l.render FailedToOpenPage.display

/-- Observable events of `e2e_test_runner` (`lib.rs` lines 29-69), in
program order: spawning the web server, printing a line, killing the web
server, exiting the process with a code, or panicking (the `unwrap` on
`kill` failing). -/
inductive RunnerEvent
  | spawn
  | println (s : String)
  | kill
  | exitProc (code : Nat)
  | panicked
deriving DecidableEq, Repr

/-- Model of `e2e_test_runner` (`lib.rs` lines 29-69) as its event trace,
given the result of `run_tests` and whether `web_server.kill()` succeeds:
spawn the web server; print the summary (`Ok` branch) or the aggregated
error (`Err` branch) while computing the exit code; kill the web server,
panicking if that fails (`unwrap`); finally exit with the computed code. -/
def e2e_test_runner (results : Except RunError (List TestResult)) (killOk : Bool) :
    List RunnerEvent :=
  let lines := match results with
    | .ok test_results => summaryLines test_results
    | .error error => [RunError.render error]
  [RunnerEvent.spawn] ++ lines.map RunnerEvent.println ++ [RunnerEvent.kill] ++
    (if killOk then [RunnerEvent.exitProc (exitCode results)] else [RunnerEvent.panicked])

/-! ### Output capture (`CaptureOutputFuture`, `lib.rs` lines 283-323)

The process-wide capture slot set by `std::io::set_output_capture` and the
per-future buffers are modelled explicitly; buffers are addressed by a
`Nat` identity (the `Arc` allocated in `CaptureOutputFuture::new`). -/

/-- State of the output machinery as seen by one poll: the capture slot
(`None` = uncaptured), the contents of every buffer, and the uncaptured
standard output. -/
structure IOState where
  slot : Option Nat
  buffers : Nat → List UInt8
  stdout : List UInt8

/-- A write of diagnostic bytes by the test body: appended to the installed
capture buffer when one is installed, else to standard output. -/
def writeOut (s : IOState) (bs : List UInt8) : IOState :=
  match s.slot with
  | some b => { s with buffers := fun j => if j = b then s.buffers j ++ bs else s.buffers j }
  | none => { s with stdout := s.stdout ++ bs }

/-- Behaviour of the inner future during one poll: it suspends, completes
with a value, or panics — in each case having written `writes` bytes. -/
inductive PollStep
  | pending (writes : List UInt8)
  | ready (v : Except String Unit) (writes : List UInt8)
  | panics (p : PanicPayload) (writes : List UInt8)
deriving DecidableEq, Repr

/-- The bytes written by the inner future during the poll. -/
def PollStep.writes : PollStep → List UInt8
  | .pending w => w
  | .ready _ w => w
  | .panics _ w => w

/-- The value a poll of `CaptureOutputFuture` returns:
`Poll<(Result<Fut::Output, CaughtPanic>, Vec<u8>)>`. -/
inductive PollResult
  | pending
  | readyOut (r : Except (Option String) (Except String Unit)) (output : List UInt8)
deriving DecidableEq, Repr

/-- Model of `CaptureOutputFuture::poll` (`lib.rs` lines 303-322) for the
future owning buffer `bid`: install the own buffer in the capture slot,
poll the inner future under `catch_unwind` (its writes go to whatever the
slot holds — the own buffer), uninstall the slot (`set_output_capture(None)`,
reached on every exit path because `catch_unwind` also returns on panic),
then on `Ready` or on a caught panic take the buffer contents
(`mem::replace(.., Vec::new())`) and return them with the value. -/
def pollCapture (bid : Nat) (step : PollStep) (s : IOState) : IOState × PollResult :=
  let s₁ : IOState := { s with slot := some bid }
  let s₂ : IOState := writeOut s₁ step.writes
  let s₃ : IOState := { s₂ with slot := none }
  match step with
  | .pending _ => (s₃, .pending)
  | .ready v _ =>
      ({ s₃ with buffers := fun j => if j = bid then [] else s₃.buffers j },
       .readyOut (.ok v) (s₃.buffers bid))
  | .panics p _ =>
      ({ s₃ with buffers := fun j => if j = bid then [] else s₃.buffers j },
       .readyOut (.error (CaughtPanic.new p)) (s₃.buffers bid))

/-! ### Proof-support definitions -/

/-- The successful component of a per-cell result, if any. -/
def okPart : Except (FailedToOpenPage × String) TestResult → Option TestResult
  | .ok r => some r
  | .error _ => none

/-- The setup-failure component of a per-cell result, if any. -/
def errPart : Except (FailedToOpenPage × String) TestResult →
    Option (FailedToOpenPage × String)
  | .ok _ => none
  | .error p => some p

/-- The entries of an optional `ErrorList`, the empty list for `none`. -/
def errVec : Option (ErrorList FailedToOpenPage) → List (FailedToOpenPage × String)
  | none => []
  | some l => l.vec

/-- The browser kinds whose launch failed, in the order the three bring-up
blocks of `run_tests` examine them. -/
def failedKinds (chromium firefox webkit : Except String Unit) : List BrowserType :=
  (match chromium with | .ok _ => [] | .error _ => [BrowserType.Chromium]) ++
  (match firefox with | .ok _ => [] | .error _ => [BrowserType.Firefox]) ++
  (match webkit with | .ok _ => [] | .error _ => [BrowserType.Webkit])

/-! ### Lemmas about the result fold -/

theorem foldl_foldStep_fst (l : List (Except (FailedToOpenPage × String) TestResult))
    (rs : List TestResult) (es : Option (ErrorList FailedToOpenPage)) :
    (l.foldl foldStep (rs, es)).1 = rs ++ l.filterMap okPart := by
  induction l generalizing rs es with
  | nil => simp
  | cons x l ih =>
    cases x with
    | ok r => simp [foldStep, ih, okPart]
    | error p =>
      cases es with
      | none => simp [foldStep, ih, okPart]
      | some e => simp [foldStep, ih, okPart]

theorem foldl_foldStep_snd (l : List (Except (FailedToOpenPage × String) TestResult))
    (rs : List TestResult) (es : Option (ErrorList FailedToOpenPage)) :
    (l.foldl foldStep (rs, es)).2 =
      match es with
      | some e => some ⟨e.vec ++ l.filterMap errPart⟩
      | none =>
        match l.filterMap errPart with
        | [] => none
        | x :: xs => some ⟨x :: xs⟩ := by
  induction l generalizing rs es with
  | nil => cases es <;> simp
  | cons x l ih =>
    cases x with
    | ok r => cases es <;> simp [foldStep, ih, errPart]
    | error p =>
      cases es with
      | none => simp [foldStep, ih, errPart, ErrorList.new]
      | some e => simp [foldStep, ih, errPart, ErrorList.push]

theorem foldResults_fst (l : List (Except (FailedToOpenPage × String) TestResult)) :
    (foldResults l).1 = l.filterMap okPart := by
  simpa using foldl_foldStep_fst l [] none

theorem errVec_foldResults (l : List (Except (FailedToOpenPage × String) TestResult)) :
    errVec (foldResults l).2 = l.filterMap errPart := by
  have h := foldl_foldStep_snd l [] none
  unfold foldResults
  rw [h]
  cases hfm : l.filterMap errPart <;> simp [errVec]

theorem foldResults_snd_eq_none_iff
    (l : List (Except (FailedToOpenPage × String) TestResult)) :
    (foldResults l).2 = none ↔ l.filterMap errPart = [] := by
  have h := foldl_foldStep_snd l [] none
  unfold foldResults
  rw [h]
  cases hfm : l.filterMap errPart <;> simp

theorem resultIsOk_iff (x : Except String Unit) : resultIsOk x = true ↔ x = .ok () := by
  cases x with
  | ok u => cases u; simp [resultIsOk]
  | error e => simp [resultIsOk]

theorem clean_arrivals_iff (l : List (Except (FailedToOpenPage × String) TestResult)) :
    (l.filterMap errPart = [] ∧
      ∀ r ∈ l.filterMap okPart, resultIsOk r.result = true) ↔
    ∀ x ∈ l, ∃ r, x = .ok r ∧ r.result = .ok () := by
  induction l with
  | nil => simp
  | cons x l ih =>
    cases x with
    | ok r =>
      simp only [List.filterMap_cons, okPart, errPart, List.forall_mem_cons]
      constructor
      · rintro ⟨he, hr, hrest⟩
        exact ⟨⟨r, rfl, (resultIsOk_iff _).mp hr⟩, ih.mp ⟨he, hrest⟩⟩
      · rintro ⟨⟨r', hr', hres⟩, hrest⟩
        obtain rfl : r' = r := by simpa using hr'.symm
        exact ⟨(ih.mpr hrest).1, (resultIsOk_iff _).mpr hres, (ih.mpr hrest).2⟩
    | error p =>
      simp only [List.filterMap_cons, okPart, errPart, List.forall_mem_cons]
      constructor
      · rintro ⟨he, -⟩
        exact absurd he (by simp)
      · rintro ⟨⟨r', hr', -⟩, -⟩
        exact absurd hr' (by simp)

theorem exitCode_ok_iff (rs : List TestResult) :
    exitCode (.ok rs) = 0 ↔ ∀ r ∈ rs, resultIsOk r.result = true := by
  have hc : rs.countP (fun r => resultIsOk r.result) = rs.length ↔
      ∀ r ∈ rs, resultIsOk r.result = true := by
    simp [List.countP_eq_length]
  by_cases h : rs.countP (fun r => resultIsOk r.result) = rs.length
  · simp only [exitCode, if_pos h]
    exact ⟨fun _ => hc.mp h, fun _ => trivial⟩
  · simp only [exitCode, if_neg h]
    constructor
    · intro h1
      exact absurd h1 (by simp)
    · intro hall
      exact absurd (hc.mpr hall) h

theorem exitCode_eq_zero_iff (tests : List Testable)
    (chromium firefox webkit : Except String Unit) (order : List BrowserType)
    (beh : Testable → BrowserType → CellBehavior)
    (arrivals : List (Except (FailedToOpenPage × String) TestResult)) :
    exitCode (run_tests tests chromium firefox webkit order beh arrivals) = 0 ↔
      ((initBrowsers chromium firefox webkit).2 = none ∧
        ∀ x ∈ arrivals, ∃ r, x = .ok r ∧ r.result = .ok ()) := by
  unfold run_tests
  cases hinit : (initBrowsers chromium firefox webkit).2 with
  | some errors => simp [exitCode]
  | none =>
    simp only [true_and]
    cases herr : (foldResults arrivals).2 with
    | some l =>
      simp only [exitCode]
      constructor
      · intro h; exact absurd h (by simp)
      · intro hclean
        have := (clean_arrivals_iff arrivals).mpr hclean
        have hnone := (foldResults_snd_eq_none_iff arrivals).mpr this.1
        rw [herr] at hnone
        exact absurd hnone (by simp)
    | none =>
      rw [exitCode_ok_iff, foldResults_fst]
      constructor
      · intro hall
        exact (clean_arrivals_iff arrivals).mp
          ⟨(foldResults_snd_eq_none_iff arrivals).mp herr, hall⟩
      · intro hclean
        exact ((clean_arrivals_iff arrivals).mpr hclean).2

theorem exitCode_zero_or_one (results : Except RunError (List TestResult)) :
    exitCode results = 0 ∨ exitCode results = 1 := by
  cases results with
  | ok rs =>
    by_cases h : rs.countP (fun r => resultIsOk r.result) = rs.length <;>
      simp [exitCode, h]
  | error e => simp [exitCode]

theorem mem_exitProc_runner_iff (results : Except RunError (List TestResult))
    (code : Nat) :
    RunnerEvent.exitProc code ∈ e2e_test_runner results true ↔
      code = exitCode results := by
  unfold e2e_test_runner
  simp

/-! ### Concrete sample values used by witnesses -/

/-- A collaborator behaviour where every cell acquires its context and page
and the body passes without writing output. -/
def sampleBeh : Testable → BrowserType → CellBehavior :=
  fun _ _ => CellBehavior.run (BodyOutcome.ret (.ok ()) [])

/-- A sample successful outcome. -/
def sampleOkResult : TestResult :=
  ⟨"t", BrowserType.Chromium, .ok (), []⟩

/-- A sample per-cell setup failure. -/
def sampleFailure : FailedToOpenPage × String :=
  (⟨"t", BrowserType.Chromium⟩, "could not open page")

/-! ### Claims -/

/-- C1: for every run of `e2e_test_runner`, the process exit code is 0 iff
there were zero setup failures (environment initialization included, i.e.
`run_tests` did not return `Err`) and every produced outcome succeeded; in
every other case the exit code is 1. -/
theorem exit_code_zero_iff_clean (tests : List Testable)
    (chromium firefox webkit : Except String Unit) (order : List BrowserType)
    (beh : Testable → BrowserType → CellBehavior)
    (arrivals : List (Except (FailedToOpenPage × String) TestResult)) :
    (RunnerEvent.exitProc 0 ∈
        e2e_test_runner (run_tests tests chromium firefox webkit order beh arrivals) true ↔
      ((initBrowsers chromium firefox webkit).2 = none ∧
        ∀ x ∈ arrivals, ∃ r, x = .ok r ∧ r.result = .ok ())) ∧
    (RunnerEvent.exitProc 1 ∈
        e2e_test_runner (run_tests tests chromium firefox webkit order beh arrivals) true ↔
      ¬((initBrowsers chromium firefox webkit).2 = none ∧
        ∀ x ∈ arrivals, ∃ r, x = .ok r ∧ r.result = .ok ())) := by
  constructor
  · rw [mem_exitProc_runner_iff, eq_comm, exitCode_eq_zero_iff]
  · rw [mem_exitProc_runner_iff, eq_comm,
      ← exitCode_eq_zero_iff tests chromium firefox webkit order beh arrivals]
    rcases exitCode_zero_or_one
        (run_tests tests chromium firefox webkit order beh arrivals) with h | h <;>
      simp [h]

theorem exit_code_zero_iff_clean_witness :
    RunnerEvent.exitProc 0 ∈
      e2e_test_runner (run_tests [] (.ok ()) (.ok ()) (.ok ()) [] sampleBeh []) true :=
  (exit_code_zero_iff_clean [] (.ok ()) (.ok ()) (.ok ()) [] sampleBeh []).1.mpr
    ⟨rfl, by simp⟩

/-- C4 counterexample: a test body panicking with a non-string payload
yields the sentinel message `"Unknown error"` (capital U), not the
lower-case `"unknown error"` the claim states. -/
theorem panic_sentinel_counterexample :
    runTestable (BodyOutcome.panics PanicPayload.nonStrPayload []) =
      (Except.error "Unknown error", []) ∧
    (Except.error "Unknown error" : Except String Unit) ≠
      Except.error "unknown error" := by
  exact ⟨rfl, by decide⟩

/-- C4 (amended): a panicking test body is caught and converted into a
failed outcome — a string payload becomes an error message equal to the
payload, any non-string payload becomes the fixed `"Unknown error"`
sentinel — and a cell whose body panics still yields an `Ok` per-cell
result (an outcome), never an error that could disturb the scheduler. -/
theorem panic_isolation_message :
    (∀ s w, runTestable (BodyOutcome.panics (PanicPayload.strPayload s) w) =
      (Except.error s, w)) ∧
    (∀ w, runTestable (BodyOutcome.panics PanicPayload.nonStrPayload w) =
      (Except.error "Unknown error", w)) ∧
    (∀ test bt body, ∃ r, cellResult test bt (CellBehavior.run body) = Except.ok r) := by
  refine ⟨fun s w => rfl, fun w => rfl, fun test bt body => ?_⟩
  cases body <;> exact ⟨_, rfl⟩

/-- C7: the fold merging per-cell results into (outcome list, optional
aggregated setup-error list) is interleaving-invariant — folding the same
multiset of per-cell results in any completion order yields the same
multiset of outcomes and the same multiset of setup failures (and agreement
on whether any setup failure occurred at all). -/
theorem fold_completion_order_invariant
    (l₁ l₂ : List (Except (FailedToOpenPage × String) TestResult))
    (hperm : l₁.Perm l₂) :
    (foldResults l₁).1.Perm (foldResults l₂).1 ∧
    (errVec (foldResults l₁).2).Perm (errVec (foldResults l₂).2) ∧
    ((foldResults l₁).2 = none ↔ (foldResults l₂).2 = none) := by
  refine ⟨?_, ?_, ?_⟩
  · rw [foldResults_fst, foldResults_fst]
    exact hperm.filterMap okPart
  · rw [errVec_foldResults, errVec_foldResults]
    exact hperm.filterMap errPart
  · rw [foldResults_snd_eq_none_iff, foldResults_snd_eq_none_iff]
    have h := hperm.filterMap errPart
    constructor
    · intro h1
      rw [h1] at h
      exact h.symm.eq_nil
    · intro h2
      rw [h2] at h
      exact h.eq_nil

theorem fold_completion_order_invariant_witness :
    ([Except.ok sampleOkResult, Except.error sampleFailure].Perm
      [Except.error sampleFailure, Except.ok sampleOkResult]) ∧
    (foldResults [Except.ok sampleOkResult, Except.error sampleFailure]).1.Perm
      (foldResults [Except.error sampleFailure, Except.ok sampleOkResult]).1 :=
  ⟨List.Perm.swap _ _ _,
   (fold_completion_order_invariant _ _ (List.Perm.swap _ _ _)).1⟩

/-- C8 counterexample: two runs over the same set of successfully
initialized environments but with different hash-map iteration orders
construct the cells in different orders, so construction order is not
stable across runs. -/
theorem cell_order_unstable_counterexample :
    ([BrowserType.Chromium, BrowserType.Firefox].Perm
      [BrowserType.Firefox, BrowserType.Chromium]) ∧
    mkCells [⟨"t"⟩] [BrowserType.Chromium, BrowserType.Firefox] ≠
      mkCells [⟨"t"⟩] [BrowserType.Firefox, BrowserType.Chromium] :=
  ⟨List.Perm.swap _ _ _, by decide⟩

/-- C8 (amended): given the same test list and the same set of successfully
initialized environments, the multiset of constructed (test, environment)
cells is stable across runs; the construction order itself follows the
hash-map iteration order and may differ between runs. -/
theorem cells_multiset_stable (tests : List Testable) (o₁ o₂ : List BrowserType)
    (hperm : o₁.Perm o₂) : (mkCells tests o₁).Perm (mkCells tests o₂) := by
  induction tests with
  | nil => simp [mkCells]
  | cons t ts ih =>
    simp only [mkCells, List.flatMap_cons]
    exact (hperm.map _).append ih

theorem cells_multiset_stable_witness :
    ([BrowserType.Chromium, BrowserType.Firefox].Perm
      [BrowserType.Firefox, BrowserType.Chromium]) ∧
    (mkCells [⟨"t"⟩] [BrowserType.Chromium, BrowserType.Firefox]).Perm
      (mkCells [⟨"t"⟩] [BrowserType.Firefox, BrowserType.Chromium]) :=
  ⟨List.Perm.swap _ _ _, cells_multiset_stable _ _ _ (List.Perm.swap _ _ _)⟩

/-- C3: if environment initialization fails for `k ≥ 1` of the three
configured kinds, every remaining kind is still attempted (the aggregated
list names exactly the failing kinds, in bring-up order, regardless of
which failed first), `run_tests` returns the aggregated list of exactly `k`
(kind, error) entries, the result does not depend on any per-cell results
(zero outcomes are produced), and the exit code is 1. -/
theorem init_failures_aggregated (tests : List Testable)
    (chromium firefox webkit : Except String Unit) (order : List BrowserType)
    (beh : Testable → BrowserType → CellBehavior)
    (arrivals : List (Except (FailedToOpenPage × String) TestResult))
    (hk : 1 ≤ (failedKinds chromium firefox webkit).length) :
    ∃ l, run_tests tests chromium firefox webkit order beh arrivals =
        .error (.initErrors l) ∧
      l.vec.length = (failedKinds chromium firefox webkit).length ∧
      l.vec.map (fun p => p.1.browser) = failedKinds chromium firefox webkit ∧
      exitCode (run_tests tests chromium firefox webkit order beh arrivals) = 1 ∧
      ∀ arrivals₂, run_tests tests chromium firefox webkit order beh arrivals₂ =
        run_tests tests chromium firefox webkit order beh arrivals := by
  rcases chromium with ec | ⟨⟩ <;> rcases firefox with ef | ⟨⟩ <;>
    rcases webkit with ew | ⟨⟩ <;>
    first
      | exact ⟨_, rfl, rfl, rfl, rfl, fun _ => rfl⟩
      | simp [failedKinds] at hk

theorem init_failures_aggregated_witness :
    1 ≤ (failedKinds (Except.error "boom") (Except.ok ()) (Except.ok ())).length ∧
    ∃ l, run_tests [] (Except.error "boom") (Except.ok ()) (Except.ok ()) []
          sampleBeh [] = .error (.initErrors l) ∧
      l.vec.length =
        (failedKinds (Except.error "boom") (Except.ok ()) (Except.ok ())).length ∧
      l.vec.map (fun p => p.1.browser) =
        failedKinds (Except.error "boom") (Except.ok ()) (Except.ok ()) ∧
      exitCode (run_tests [] (Except.error "boom") (Except.ok ()) (Except.ok ()) []
        sampleBeh []) = 1 ∧
      ∀ arrivals₂, run_tests [] (Except.error "boom") (Except.ok ()) (Except.ok ()) []
          sampleBeh arrivals₂ =
        run_tests [] (Except.error "boom") (Except.ok ()) (Except.ok ()) []
          sampleBeh [] :=
  ⟨by decide,
   init_failures_aggregated [] (Except.error "boom") (Except.ok ()) (Except.ok ())
     [] sampleBeh [] (by decide)⟩

/-- C5: if context (or page) acquisition fails for at least one cell, the
run's final result is the non-empty aggregated setup-error list; the
outcomes gathered from the other cells are not part of the result. -/
theorem setup_failure_preempts_outcomes (tests : List Testable)
    (chromium firefox webkit : Except String Unit) (order : List BrowserType)
    (beh : Testable → BrowserType → CellBehavior)
    (arrivals : List (Except (FailedToOpenPage × String) TestResult))
    (hc : chromium = .ok ()) (hf : firefox = .ok ()) (hw : webkit = .ok ())
    (hfail : ∃ p, Except.error p ∈ arrivals) :
    ∃ l, run_tests tests chromium firefox webkit order beh arrivals =
        .error (.setupErrors l) ∧ l.vec ≠ [] := by
  subst hc hf hw
  obtain ⟨p, hp⟩ := hfail
  have hvec : (errVec (foldResults arrivals).2) = arrivals.filterMap errPart :=
    errVec_foldResults arrivals
  have hne : arrivals.filterMap errPart ≠ [] := by
    intro hnil
    have : p ∈ arrivals.filterMap errPart := by
      exact List.mem_filterMap.mpr ⟨Except.error p, hp, rfl⟩
    rw [hnil] at this
    exact absurd this (List.not_mem_nil p)
  unfold run_tests
  cases hsnd : (foldResults arrivals).2 with
  | none =>
    exact absurd ((foldResults_snd_eq_none_iff arrivals).mp hsnd) hne
  | some l =>
    refine ⟨l, by simp [initBrowsers, hsnd], ?_⟩
    rw [hsnd] at hvec
    intro hempty
    exact hne (by rw [← hvec]; simpa [errVec] using hempty)

theorem setup_failure_preempts_outcomes_witness :
    (∃ p, Except.error p ∈
      [Except.ok sampleOkResult, Except.error sampleFailure,
        Except.ok sampleOkResult]) ∧
    ∃ l, run_tests [⟨"t"⟩] (.ok ()) (.ok ()) (.ok ()) [BrowserType.Chromium]
        sampleBeh
        [Except.ok sampleOkResult, Except.error sampleFailure,
          Except.ok sampleOkResult] =
      .error (.setupErrors l) ∧ l.vec ≠ [] :=
  ⟨⟨sampleFailure, by simp⟩,
   setup_failure_preempts_outcomes [⟨"t"⟩] _ _ _ [BrowserType.Chromium] sampleBeh
     _ rfl rfl rfl ⟨sampleFailure, by simp⟩⟩

/-- C9: on every exit path of the run — all tests passing, some failing, or
an aggregated error — the web-server kill happens before the process exit
with the computed code, and when the kill itself fails the runner panics
(the failure is propagated) instead of reaching the exit. -/
theorem web_server_killed_before_exit (results : Except RunError (List TestResult))
    (killOk : Bool) :
    ∃ pre,
      e2e_test_runner results killOk =
        pre ++ [RunnerEvent.kill] ++
          (if killOk then [RunnerEvent.exitProc (exitCode results)]
            else [RunnerEvent.panicked]) ∧
      (∀ code, RunnerEvent.exitProc code ∉ pre) ∧ RunnerEvent.kill ∉ pre := by
  refine ⟨[RunnerEvent.spawn] ++
    (match results with
      | .ok test_results => summaryLines test_results
      | .error error => [RunError.render error]).map RunnerEvent.println, ?_, ?_, ?_⟩
  · cases results <;> simp [e2e_test_runner]
  · intro code hmem
    rcases List.mem_append.mp hmem with h | h
    · simp at h
    · obtain ⟨s, -, habs⟩ := List.mem_map.mp h
      exact absurd habs (by simp)
  · intro hmem
    rcases List.mem_append.mp hmem with h | h
    · simp at h
    · obtain ⟨s, -, habs⟩ := List.mem_map.mp h
      exact absurd habs (by simp)

theorem web_server_killed_before_exit_witness :
    ∃ pre,
      e2e_test_runner (.ok []) false =
        pre ++ [RunnerEvent.kill] ++
          (if false then [RunnerEvent.exitProc (exitCode (.ok []))]
            else [RunnerEvent.panicked]) ∧
      (∀ code, RunnerEvent.exitProc code ∉ pre) ∧ RunnerEvent.kill ∉ pre :=
  web_server_killed_before_exit (.ok []) false

/-- C10: with an empty test list and all environments initializing
successfully, `run_tests` returns zero outcomes, the runner prints the
summary line `"0 tests ran with success"`, and the process exits with
code 0. -/
theorem empty_test_list_reports_success
    (chromium firefox webkit : Except String Unit) (order : List BrowserType)
    (beh : Testable → BrowserType → CellBehavior)
    (arrivals : List (Except (FailedToOpenPage × String) TestResult))
    (hc : chromium = .ok ()) (hf : firefox = .ok ()) (hw : webkit = .ok ())
    (hperm : arrivals.Perm (cellResults [] order beh)) :
    run_tests [] chromium firefox webkit order beh arrivals = .ok [] ∧
    RunnerEvent.println "0 tests ran with success" ∈
      e2e_test_runner (run_tests [] chromium firefox webkit order beh arrivals) true ∧
    RunnerEvent.exitProc 0 ∈
      e2e_test_runner (run_tests [] chromium firefox webkit order beh arrivals) true := by
  subst hc hf hw
  have harr : arrivals = [] := by
    have : cellResults [] order beh = [] := rfl
    rw [this] at hperm
    exact hperm.eq_nil
  subst harr
  refine ⟨rfl, ?_, ?_⟩
  · simp only [e2e_test_runner, run_tests, foldResults, initBrowsers, summaryLines]
    simp only [List.foldl_nil, List.countP_nil, List.length_nil, List.map_nil,
      if_pos rfl]
    have h0 : toString 0 ++ " tests ran with success" = "0 tests ran with success" := rfl
    simp [h0]
  · simp [e2e_test_runner, run_tests, foldResults, initBrowsers, exitCode]

theorem empty_test_list_reports_success_witness :
    run_tests [] (.ok ()) (.ok ()) (.ok ()) [BrowserType.Chromium] sampleBeh [] =
      .ok [] ∧
    RunnerEvent.println "0 tests ran with success" ∈
      e2e_test_runner
        (run_tests [] (.ok ()) (.ok ()) (.ok ()) [BrowserType.Chromium] sampleBeh [])
        true ∧
    RunnerEvent.exitProc 0 ∈
      e2e_test_runner
        (run_tests [] (.ok ()) (.ok ()) (.ok ()) [BrowserType.Chromium] sampleBeh [])
        true :=
  empty_test_list_reports_success (.ok ()) (.ok ()) (.ok ())
    [BrowserType.Chromium] sampleBeh [] rfl rfl rfl (List.Perm.refl _)

/-- A sample initial I/O state for the capture witness: some other buffer
is installed and every buffer is empty. -/
def sampleIO : IOState :=
  ⟨some 3, fun _ => [], [9]⟩

/-- C6: one poll of `CaptureOutputFuture` scopes the diagnostic output to
its own buffer: on every exit path (suspension, normal completion, caught
panic) the capture slot ends uninstalled, no sibling buffer is touched,
nothing reaches uncaptured stdout, and the bytes the body writes go to this
future's buffer exactly — accumulated while pending, and returned (with the
buffer reset) when the poll completes or recovers from a panic. -/
theorem capture_buffer_scoped (bid : Nat) (step : PollStep) (s : IOState) :
    ((pollCapture bid step s).1.slot = none) ∧
    (∀ j, j ≠ bid → (pollCapture bid step s).1.buffers j = s.buffers j) ∧
    ((pollCapture bid step s).1.stdout = s.stdout) ∧
    (match step with
      | .pending w =>
          (pollCapture bid step s).1.buffers bid = s.buffers bid ++ w ∧
          (pollCapture bid step s).2 = PollResult.pending
      | .ready v w =>
          (pollCapture bid step s).1.buffers bid = [] ∧
          (pollCapture bid step s).2 =
            PollResult.readyOut (.ok v) (s.buffers bid ++ w)
      | .panics p w =>
          (pollCapture bid step s).1.buffers bid = [] ∧
          (pollCapture bid step s).2 =
            PollResult.readyOut (.error (CaughtPanic.new p)) (s.buffers bid ++ w)) := by
  cases step with
  | pending w =>
    refine ⟨rfl, fun j hj => ?_, rfl, ?_, rfl⟩
    · simp [pollCapture, writeOut, PollStep.writes, hj]
    · simp [pollCapture, writeOut, PollStep.writes]
  | ready v w =>
    refine ⟨rfl, fun j hj => ?_, rfl, ?_, ?_⟩
    · simp [pollCapture, writeOut, PollStep.writes, hj]
    · simp [pollCapture, writeOut, PollStep.writes]
    · simp [pollCapture, writeOut, PollStep.writes]
  | panics p w =>
    refine ⟨rfl, fun j hj => ?_, rfl, ?_, ?_⟩
    · simp [pollCapture, writeOut, PollStep.writes, hj]
    · simp [pollCapture, writeOut, PollStep.writes]
    · simp [pollCapture, writeOut, PollStep.writes]

theorem capture_buffer_scoped_witness :
    ((pollCapture 0 (PollStep.pending [7]) sampleIO).1.slot = none) ∧
    ((pollCapture 0 (PollStep.pending [7]) sampleIO).1.buffers 1 =
      sampleIO.buffers 1) :=
  ⟨(capture_buffer_scoped 0 (PollStep.pending [7]) sampleIO).1,
   (capture_buffer_scoped 0 (PollStep.pending [7]) sampleIO).2.1 1 (by decide)⟩

/-! ### Lemmas for the full-matrix claim -/

theorem mkCells_cons (t : Testable) (ts : List Testable) (order : List BrowserType) :
    mkCells (t :: ts) order = order.map (fun bt => (t, bt)) ++ mkCells ts order := by
  simp [mkCells]

theorem mkCells_length (tests : List Testable) (order : List BrowserType) :
    (mkCells tests order).length = tests.length * order.length := by
  induction tests with
  | nil => simp [mkCells]
  | cons t ts ih =>
    rw [mkCells_cons, List.length_append, List.length_map, ih, List.length_cons]
    ring

theorem cells_map_ok (beh : Testable → BrowserType → CellBehavior)
    (cells : List (Testable × BrowserType))
    (hrun : ∀ cell ∈ cells, ∃ body, beh cell.1 cell.2 = CellBehavior.run body) :
    ((cells.map (fun cell => cellResult cell.1 cell.2 (beh cell.1 cell.2))).filterMap
        okPart).map (fun r => (r.test_name, r.browser_type)) =
      cells.map (fun cell => (cell.1.name, cell.2)) ∧
    (cells.map (fun cell => cellResult cell.1 cell.2 (beh cell.1 cell.2))).filterMap
        errPart = [] := by
  induction cells with
  | nil => exact ⟨rfl, rfl⟩
  | cons cell cells ih =>
    obtain ⟨body, hbody⟩ := hrun cell (List.mem_cons_self cell cells)
    obtain ⟨ih₁, ih₂⟩ := ih (fun c hc => hrun c (List.mem_cons_of_mem cell hc))
    cases body with
    | ret r w =>
      have hhead : cellResult cell.1 cell.2 (beh cell.1 cell.2) =
          Except.ok ⟨cell.1.name, cell.2, r, w⟩ := by
        rw [hbody]
        rfl
      constructor
      · simp only [List.map_cons, hhead, List.filterMap_cons, okPart]
        rw [ih₁]
      · simp only [List.map_cons, hhead, List.filterMap_cons, errPart]
        exact ih₂
    | panics p w =>
      have hhead : cellResult cell.1 cell.2 (beh cell.1 cell.2) =
          Except.ok ⟨cell.1.name, cell.2,
            .error (CaughtPanic.display (CaughtPanic.new p)), w⟩ := by
        rw [hbody]
        rfl
      constructor
      · simp only [List.map_cons, hhead, List.filterMap_cons, okPart]
        rw [ih₁]
      · simp only [List.map_cons, hhead, List.filterMap_cons, errPart]
        exact ih₂

theorem mkCells_pairs_eq_product (tests : List Testable) (order : List BrowserType) :
    (mkCells tests order).map (fun cell => (cell.1.name, cell.2)) =
      (tests.map Testable.name) ×ˢ order := by
  induction tests with
  | nil => rfl
  | cons t ts ih =>
    simp only [mkCells, List.flatMap_cons, List.map_append, List.map_map,
      List.map_cons, List.product_cons]
    rw [← ih]
    simp [mkCells, Function.comp]

/-- C2: when all three environments initialize successfully and every
context and page acquisition succeeds, `run_tests` returns exactly
`N × M` outcomes, one per (test, environment) cell: for each test in the
list and each initialized environment there is exactly one outcome bearing
that (test name, environment) pair — never zero, never more than one. -/
theorem run_tests_full_matrix (tests : List Testable)
    (chromium firefox webkit : Except String Unit) (order : List BrowserType)
    (beh : Testable → BrowserType → CellBehavior)
    (arrivals : List (Except (FailedToOpenPage × String) TestResult))
    (hc : chromium = .ok ()) (hf : firefox = .ok ()) (hw : webkit = .ok ())
    (hrun : ∀ test bt, ∃ body, beh test bt = CellBehavior.run body)
    (hperm : arrivals.Perm (cellResults tests order beh))
    (hnames : (tests.map Testable.name).Nodup) (horder : order.Nodup) :
    ∃ rs, run_tests tests chromium firefox webkit order beh arrivals = .ok rs ∧
      rs.length = tests.length * order.length ∧
      ∀ test ∈ tests, ∀ bt ∈ order,
        rs.countP
          (fun r => decide (r.test_name = test.name ∧ r.browser_type = bt)) = 1 := by
  subst hc hf hw
  obtain ⟨hok, herrnil⟩ := cells_map_ok beh (mkCells tests order)
    (fun cell _ => hrun cell.1 cell.2)
  have herr : arrivals.filterMap errPart = [] := by
    have hp := hperm.filterMap errPart
    rw [show (cellResults tests order beh).filterMap errPart = [] from herrnil] at hp
    exact hp.eq_nil
  have hsnd : (foldResults arrivals).2 = none :=
    (foldResults_snd_eq_none_iff arrivals).mpr herr
  have hpairs : ((arrivals.filterMap okPart).map
      (fun r => (r.test_name, r.browser_type))).Perm ((tests.map Testable.name) ×ˢ order) := by
    have h1 := (hperm.filterMap okPart).map (fun r => (r.test_name, r.browser_type))
    rw [show ((cellResults tests order beh).filterMap okPart).map
        (fun r => (r.test_name, r.browser_type)) =
        (mkCells tests order).map (fun cell => (cell.1.name, cell.2)) from hok,
      mkCells_pairs_eq_product] at h1
    exact h1
  refine ⟨(foldResults arrivals).1, ?_, ?_, ?_⟩
  · unfold run_tests
    simp [initBrowsers, hsnd]
  · rw [foldResults_fst]
    have hlen := hpairs.length_eq
    rw [List.length_map, List.length_product, List.length_map] at hlen
    exact hlen
  · intro test htest bt hbt
    rw [foldResults_fst]
    have hpred : (fun r : TestResult =>
        decide (r.test_name = test.name ∧ r.browser_type = bt)) =
        (fun pr : String × BrowserType => decide (pr = (test.name, bt))) ∘
          (fun r : TestResult => (r.test_name, r.browser_type)) := by
      funext r
      simp [Function.comp, Prod.ext_iff]
    rw [hpred, ← List.countP_map, hpairs.countP_eq]
    exact List.count_eq_one_of_mem (List.Nodup.product hnames horder)
      (List.mem_product.mpr ⟨List.mem_map_of_mem Testable.name htest, hbt⟩)

theorem run_tests_full_matrix_witness :
    ∃ rs, run_tests [⟨"t"⟩] (.ok ()) (.ok ()) (.ok ()) [BrowserType.Chromium]
        sampleBeh (cellResults [⟨"t"⟩] [BrowserType.Chromium] sampleBeh) = .ok rs ∧
      rs.length = [(⟨"t"⟩ : Testable)].length * [BrowserType.Chromium].length ∧
      ∀ test ∈ [(⟨"t"⟩ : Testable)], ∀ bt ∈ [BrowserType.Chromium],
        rs.countP
          (fun r => decide (r.test_name = test.name ∧ r.browser_type = bt)) = 1 :=
  run_tests_full_matrix [⟨"t"⟩] (.ok ()) (.ok ()) (.ok ()) [BrowserType.Chromium]
    sampleBeh (cellResults [⟨"t"⟩] [BrowserType.Chromium] sampleBeh)
    rfl rfl rfl (fun _ _ => ⟨BodyOutcome.ret (.ok ()) [], rfl⟩)
    (List.Perm.refl _) (by decide) (by decide)

end E2E
